import Mathlib

/-!
Shallow embedding of the proximity-based drive-time discount engine of the
property-calculator repository.

Sources embedded here:
* the `PUT` handler of `app/api/active-properties/route.ts` (haversine
  distance, radius filter, ascending sort, tier lookup, parameter
  validation by JS truthiness);
* `calculateProximity` in `hooks/useActiveProperties.ts` (client-side
  truthiness validation mirrors the route's);
* `calculateDriveTime` in `app/components/PropertyCalculator.tsx`
  (baseline rounding to 0.1 h and the proximity adjustment).

JSON numbers (request parameters, stored coordinates) are modelled as
rationals; the floating-point trigonometry of the distance computation is
modelled over the reals.
-/

namespace PropertyCalc

open Real

/-- JS `Math.atan2 y x`, via the complex argument of `x + y*I` (the two
agree on all of ℝ², including `atan2 0 0 = 0`). -/
noncomputable def atan2 (y x : ℝ) : ℝ :=
  Complex.arg ⟨x, y⟩

/-- The intermediate value `a` of the haversine computation in the route's
`PUT` handler: `sin(dLat/2)^2 + cos(lat1)*cos(lat2)*sin(dLon/2)^2` with all
angles converted from degrees to radians. Arguments are origin latitude,
origin longitude, candidate latitude, candidate longitude (degrees). -/
noncomputable def havA (lat lng plat plng : ℝ) : ℝ :=
  Real.sin ((plat - lat) * π / 180 / 2) * Real.sin ((plat - lat) * π / 180 / 2) +
    Real.cos (lat * π / 180) * Real.cos (plat * π / 180) *
      Real.sin ((plng - lng) * π / 180 / 2) * Real.sin ((plng - lng) * π / 180 / 2)

/-- The raw (unrounded) distance of the route's `PUT` handler:
`R * c` with `R = 3959` miles and `c = 2 * atan2 (sqrt a) (sqrt (1 - a))`. -/
noncomputable def rawHaversine (lat lng plat plng : ℝ) : ℝ :=
  3959 * (2 * atan2 (Real.sqrt (havA lat lng plat plng))
    (Real.sqrt (1 - havA lat lng plat plng)))

/-- JS `Math.round (x * 100) / 100`: rounding to the nearest 0.01 with the
half-way case rounded up, exactly as `round` on an ordered field. -/
noncomputable def round2 (x : ℝ) : ℝ :=
  (round (x * 100) : ℝ) / 100

/-- The distance stored on each scored candidate by the `PUT` handler:
the haversine value rounded to two decimals. Inputs are the JSON-number
coordinates (origin then candidate). -/
noncomputable def propertyDistance (lat lng plat plng : ℚ) : ℝ :=
  round2 (rawHaversine (lat : ℝ) (lng : ℝ) (plat : ℝ) (plng : ℝ))

/-- A row of the `active_properties` table as consumed by the `PUT`
handler: coordinates, assigned branch code and activation flag. -/
structure CandidateProperty where
  id : ℕ
  name : String
  lat : ℚ
  lng : ℚ
  branch : String
  is_active : Bool
deriving DecidableEq

/-- The request body of the proximity `PUT` endpoint:
`{ lat, lng, branch, radiusMiles = 1 }`. -/
structure ProximityQuery where
  lat : ℚ
  lng : ℚ
  branch : String
  radiusMiles : ℚ
deriving DecidableEq

/-- The JSON answer of the proximity `PUT` endpoint. -/
structure ProximityResult where
  nearbyProperties : List (CandidateProperty × ℝ)
  proximityFactor : ℚ
  description : String
  count : ℕ

/-- The tier lookup of the `PUT` handler: the discount factor as a function
of the number of nearby properties. -/
def proximityFactor (count : ℕ) : ℚ :=
  if 10 ≤ count then 0.25
  else if 5 ≤ count then 0.5
  else if 3 ≤ count then 0.7
  else if 1 ≤ count then 0.85
  else 1.0

/-- The `${radiusMiles > 1 ? 's' : ''}` fragment of the tier descriptions. -/
def milePlural (radiusMiles : ℚ) : String :=
  if 1 < radiusMiles then "s" else ""

/-- The tier description strings of the `PUT` handler (numeric interpolation
rendered with `toString`). -/
def proximityDescription (count : ℕ) (radiusMiles : ℚ) : String :=
  if 10 ≤ count then
    "Dense route - " ++ toString count ++ " properties within " ++
      toString radiusMiles ++ " mile" ++ milePlural radiusMiles
  else if 5 ≤ count then
    "Good route density - " ++ toString count ++ " properties within " ++
      toString radiusMiles ++ " mile" ++ milePlural radiusMiles
  else if 3 ≤ count then
    "Moderate route - " ++ toString count ++ " properties within " ++
      toString radiusMiles ++ " mile" ++ milePlural radiusMiles
  else if 1 ≤ count then
    "Light route - " ++ toString count ++ " propert" ++
      (if count = 1 then "y" else "ies") ++ " within " ++
      toString radiusMiles ++ " mile" ++ milePlural radiusMiles
  else "Isolated property"

/-- Scoring step of the `PUT` handler: attach the rounded distance from the
query origin to a candidate row. -/
noncomputable def scoreCandidate (lat lng : ℚ) (p : CandidateProperty) :
    CandidateProperty × ℝ :=
  (p, propertyDistance lat lng p.lat p.lng)

/-- The `nearbyProperties` list of the `PUT` handler: the supabase query
filters rows with `is_active = true` and `branch = branchStr`; the handler
then maps each row to its rounded distance, keeps `distance <= radiusMiles`
and sorts ascending by distance. -/
noncomputable def nearbyList (lat lng : ℚ) (branchStr : String) (radiusMiles : ℚ)
    (candidates : List CandidateProperty) : List (CandidateProperty × ℝ) :=
  (((candidates.filter fun p => p.is_active && p.branch == branchStr).map
      (scoreCandidate lat lng)).filter
      fun pd => decide (pd.2 ≤ (radiusMiles : ℝ))).mergeSort
    fun a b => decide (a.2 ≤ b.2)

/-- The whole `PUT` handler: JS-truthiness validation of `lat`, `lng` and
`branch` (a coordinate equal to 0 or an empty branch string is falsy and
rejected with status 400), lowercasing of the branch, then the
filter/score/cut/sort pipeline and the tier lookup. `radiusMiles` is never
validated. -/
noncomputable def computeProximity (q : ProximityQuery)
    (candidates : List CandidateProperty) : Except String ProximityResult :=
  if q.lat = 0 ∨ q.lng = 0 ∨ q.branch = "" then
    Except.error "Missing required parameters: lat, lng, and branch are all required"
  else
    Except.ok
      { nearbyProperties := nearbyList q.lat q.lng q.branch.toLower q.radiusMiles candidates
        proximityFactor :=
          proximityFactor (nearbyList q.lat q.lng q.branch.toLower q.radiusMiles candidates).length
        description :=
          proximityDescription
            (nearbyList q.lat q.lng q.branch.toLower q.radiusMiles candidates).length
            q.radiusMiles
        count := (nearbyList q.lat q.lng q.branch.toLower q.radiusMiles candidates).length }

/-- `calculateDriveTime` in `PropertyCalculator.tsx` rounds the baseline
drive time to the nearest 0.1 hour before any adjustment:
`Math.round(durationHours * 10) / 10`. -/
def driveTimeHours (durationHours : ℚ) : ℚ :=
  round (durationHours * 10) / 10

/-- The proximity adjustment in `calculateDriveTime`:
`Math.round(driveTimeHours * proximityFactor * 10) / 10`. There is no
validation of the baseline anywhere on this path. -/
def adjustedDriveTime (driveTime factor : ℚ) : ℚ :=
  round (driveTime * factor * 10) / 10

/-- The haversine great-circle distance exactly as the spec words it
(formulated with `2 * R * arcsin (sqrt a)`, Earth mean radius 3959 miles),
written to be compared with the code's `atan2` formulation. -/
noncomputable def haversineSpecDistance (lat lng plat plng : ℝ) : ℝ :=
  2 * 3959 * Real.arcsin (Real.sqrt
    (Real.sin ((plat - lat) * π / 180 / 2) ^ 2 +
      Real.cos (lat * π / 180) * Real.cos (plat * π / 180) *
        Real.sin ((plng - lng) * π / 180 / 2) ^ 2))

lemma atan2_nonneg {y : ℝ} (x : ℝ) (hy : 0 ≤ y) : 0 ≤ atan2 y x :=
  Complex.arg_nonneg_iff.2 hy

lemma rawHaversine_nonneg (lat lng plat plng : ℝ) :
    0 ≤ rawHaversine lat lng plat plng := by
  unfold rawHaversine
  have h := atan2_nonneg (Real.sqrt (1 - havA lat lng plat plng))
    (Real.sqrt_nonneg (havA lat lng plat plng))
  nlinarith [h]

lemma round2_nonneg {x : ℝ} (hx : 0 ≤ x) : 0 ≤ round2 x := by
  unfold round2
  apply div_nonneg _ (by norm_num)
  have h : (0 : ℤ) ≤ round (x * 100) := by
    rw [round_eq]
    exact Int.floor_nonneg.2 (by linarith)
  exact_mod_cast h

lemma propertyDistance_nonneg (lat lng plat plng : ℚ) :
    0 ≤ propertyDistance lat lng plat plng :=
  round2_nonneg (rawHaversine_nonneg _ _ _ _)

lemma havA_comm (lat lng plat plng : ℝ) :
    havA lat lng plat plng = havA plat plng lat lng := by
  unfold havA
  rw [show (lat - plat) * π / 180 / 2 = -((plat - lat) * π / 180 / 2) by ring,
    show (lng - plng) * π / 180 / 2 = -((plng - lng) * π / 180 / 2) by ring]
  simp only [Real.sin_neg]
  ring

lemma rawHaversine_comm (lat lng plat plng : ℝ) :
    rawHaversine lat lng plat plng = rawHaversine plat plng lat lng := by
  unfold rawHaversine
  rw [havA_comm]

/-- C8: for all coordinates a and b, the computed (rounded haversine)
distance is symmetric: distance(a, b) = distance(b, a). -/
theorem distance_symm (lat lng plat plng : ℚ) :
    propertyDistance lat lng plat plng = propertyDistance plat plng lat lng := by
  unfold propertyDistance
  rw [rawHaversine_comm]

lemma cos_deg_nonneg {x : ℝ} (h1 : -90 ≤ x) (h2 : x ≤ 90) :
    0 ≤ Real.cos (x * π / 180) := by
  apply Real.cos_nonneg_of_mem_Icc
  constructor
  · nlinarith [Real.pi_pos]
  · nlinarith [Real.pi_pos]

lemma havA_nonneg (lat lng plat plng : ℝ)
    (hc1 : 0 ≤ Real.cos (lat * π / 180)) (hc2 : 0 ≤ Real.cos (plat * π / 180)) :
    0 ≤ havA lat lng plat plng := by
  unfold havA
  nlinarith [mul_self_nonneg (Real.sin ((plat - lat) * π / 180 / 2)),
    mul_self_nonneg (Real.sin ((plng - lng) * π / 180 / 2)),
    mul_nonneg hc1 hc2]

lemma havA_le_one (lat lng plat plng : ℝ)
    (hc1 : 0 ≤ Real.cos (lat * π / 180)) (hc2 : 0 ≤ Real.cos (plat * π / 180)) :
    havA lat lng plat plng ≤ 1 := by
  unfold havA
  have hhalf : Real.sin ((plat - lat) * π / 180 / 2) ^ 2 =
      1 / 2 - Real.cos ((plat - lat) * π / 180) / 2 := by
    have h := Real.sin_sq_eq_half_sub ((plat - lat) * π / 180 / 2)
    rw [show 2 * ((plat - lat) * π / 180 / 2) = (plat - lat) * π / 180 by ring] at h
    exact h
  have hcs : Real.cos ((plat - lat) * π / 180) =
      Real.cos (plat * π / 180 - lat * π / 180) := by
    rw [show (plat - lat) * π / 180 = plat * π / 180 - lat * π / 180 by ring]
  have hsub := Real.cos_sub (plat * π / 180) (lat * π / 180)
  have hadd := Real.cos_add (plat * π / 180) (lat * π / 180)
  have hle := Real.cos_le_one (plat * π / 180 + lat * π / 180)
  have hs2 : Real.sin ((plng - lng) * π / 180 / 2) *
      Real.sin ((plng - lng) * π / 180 / 2) ≤ 1 := by
    nlinarith [Real.neg_one_le_sin ((plng - lng) * π / 180 / 2),
      Real.sin_le_one ((plng - lng) * π / 180 / 2)]
  nlinarith [hhalf, hcs, hsub, hadd, hle, hs2, mul_nonneg hc1 hc2,
    mul_self_nonneg (Real.sin ((plng - lng) * π / 180 / 2))]

lemma atan2_sqrt_eq_arcsin {a : ℝ} (h0 : 0 ≤ a) (h1 : a ≤ 1) :
    atan2 (Real.sqrt a) (Real.sqrt (1 - a)) = Real.arcsin (Real.sqrt a) := by
  unfold atan2
  rw [Complex.arg_of_re_nonneg (by exact Real.sqrt_nonneg (1 - a))]
  have h2 : Real.sqrt (1 - a) * Real.sqrt (1 - a) + Real.sqrt a * Real.sqrt a = 1 := by
    rw [Real.mul_self_sqrt (by linarith), Real.mul_self_sqrt h0]
    ring
  have habs : Complex.abs ⟨Real.sqrt (1 - a), Real.sqrt a⟩ = 1 := by
    rw [Complex.abs_apply, Complex.normSq_mk, h2, Real.sqrt_one]
  rw [habs]
  norm_num

lemma rawHaversine_eq_spec (lat lng plat plng : ℝ)
    (hc1 : 0 ≤ Real.cos (lat * π / 180)) (hc2 : 0 ≤ Real.cos (plat * π / 180)) :
    rawHaversine lat lng plat plng = haversineSpecDistance lat lng plat plng := by
  unfold rawHaversine haversineSpecDistance
  have ha : Real.sin ((plat - lat) * π / 180 / 2) ^ 2 +
      Real.cos (lat * π / 180) * Real.cos (plat * π / 180) *
        Real.sin ((plng - lng) * π / 180 / 2) ^ 2 = havA lat lng plat plng := by
    unfold havA
    ring
  rw [ha, atan2_sqrt_eq_arcsin (havA_nonneg lat lng plat plng hc1 hc2)
    (havA_le_one lat lng plat plng hc1 hc2)]
  ring

/-- C3: for every pair of valid coordinates, the computed distance equals
the spec's haversine great-circle distance (mean Earth radius 3959 miles)
rounded to the nearest 0.01 mile, and it is non-negative. -/
theorem distance_eq_haversine_rounded (lat lng plat plng : ℚ)
    (hlat1 : -90 ≤ lat) (hlat2 : lat ≤ 90) (_hlng1 : -180 ≤ lng) (_hlng2 : lng ≤ 180)
    (hplat1 : -90 ≤ plat) (hplat2 : plat ≤ 90) (_hplng1 : -180 ≤ plng) (_hplng2 : plng ≤ 180) :
    propertyDistance lat lng plat plng =
      round2 (haversineSpecDistance (lat : ℝ) (lng : ℝ) (plat : ℝ) (plng : ℝ)) ∧
    0 ≤ propertyDistance lat lng plat plng := by
  constructor
  · unfold propertyDistance
    rw [rawHaversine_eq_spec _ _ _ _
      (cos_deg_nonneg (by exact_mod_cast hlat1) (by exact_mod_cast hlat2))
      (cos_deg_nonneg (by exact_mod_cast hplat1) (by exact_mod_cast hplat2))]
  · exact propertyDistance_nonneg _ _ _ _

/-- Witness for C3 at the concrete coordinate pair (33, -112), (36, -115). -/
theorem distance_eq_haversine_rounded_witness :
    propertyDistance 33 (-112) 36 (-115) =
      round2 (haversineSpecDistance ((33 : ℚ) : ℝ) ((-112 : ℚ) : ℝ)
        ((36 : ℚ) : ℝ) ((-115 : ℚ) : ℝ)) ∧
    0 ≤ propertyDistance 33 (-112) 36 (-115) :=
  distance_eq_haversine_rounded 33 (-112) 36 (-115)
    (by norm_num) (by norm_num) (by norm_num) (by norm_num)
    (by norm_num) (by norm_num) (by norm_num) (by norm_num)

/-- C4 counterexample: at baseline 0.06 h (non-negative, but not a multiple
of the 0.1 h the code always feeds in) and the attainable factor 1.00 of the
N = 0 tier, the adjusted value rounds up to 0.1 > 0.06, so the claimed bound
adjusted ≤ baseline fails. -/
theorem adjusted_exceeds_baseline_cex :
    0 ≤ (0.06 : ℚ) ∧ 0 < proximityFactor 0 ∧ proximityFactor 0 ≤ 1 ∧
    adjustedDriveTime 0.06 (proximityFactor 0) = 0.1 ∧
    ¬adjustedDriveTime 0.06 (proximityFactor 0) ≤ 0.06 := by
  refine ⟨by norm_num, by norm_num [proximityFactor], by norm_num [proximityFactor], ?_, ?_⟩
  · norm_num [adjustedDriveTime, proximityFactor, round_eq]
  · norm_num [adjustedDriveTime, proximityFactor, round_eq]

/-- C4 (amended): for every baseline that is a non-negative integer multiple
of 0.1 hours (the code rounds the baseline to one decimal before adjusting)
and every factor in (0, 1], the adjusted time equals
round(baseline * factor, 1 decimal) and satisfies 0 ≤ adjusted ≤ baseline. -/
theorem adjustedDriveTime_bounds (b f : ℚ) (hb : 0 ≤ b) (hb10 : ∃ m : ℤ, b * 10 = m)
    (hf0 : 0 < f) (hf1 : f ≤ 1) :
    adjustedDriveTime b f = (round (b * f * 10) : ℚ) / 10 ∧
    0 ≤ adjustedDriveTime b f ∧ adjustedDriveTime b f ≤ b := by
  obtain ⟨m, hm⟩ := hb10
  refine ⟨rfl, ?_, ?_⟩
  · unfold adjustedDriveTime
    apply div_nonneg _ (by norm_num)
    have h : (0 : ℤ) ≤ round (b * f * 10) := by
      rw [round_eq]
      exact Int.floor_nonneg.2 (by nlinarith)
    exact_mod_cast h
  · unfold adjustedDriveTime
    have hle : b * f * 10 ≤ b * 10 := by nlinarith
    have h1 : round (b * f * 10) ≤ round (b * 10) := by
      rw [round_eq, round_eq]
      exact Int.floor_mono (by linarith)
    have h2 : round (b * 10) = m := by rw [hm, round_intCast]
    have h3 : (round (b * f * 10) : ℚ) ≤ (m : ℚ) := by exact_mod_cast h1.trans_eq h2
    have h4 : (m : ℚ) = b * 10 := hm.symm
    linarith

/-- Witness for the amended C4 at baseline 0.5 h and the N = 6 tier factor 0.5. -/
theorem adjustedDriveTime_bounds_witness :
    adjustedDriveTime 0.5 (proximityFactor 6) =
      (round ((0.5 : ℚ) * proximityFactor 6 * 10) : ℚ) / 10 ∧
    0 ≤ adjustedDriveTime 0.5 (proximityFactor 6) ∧
    adjustedDriveTime 0.5 (proximityFactor 6) ≤ 0.5 :=
  adjustedDriveTime_bounds 0.5 (proximityFactor 6) (by norm_num)
    ⟨5, by norm_num⟩ (by norm_num [proximityFactor]) (by norm_num [proximityFactor])

/-- C6 counterexample: a negative baseline is never rejected; the code
computes a numeric adjusted value. At baseline -1 h and the N = 1 tier
factor 0.85, the result is round(-8.5)/10 = -0.8 (JS Math.round rounds the
half-way case toward +infinity, as does `round`). -/
theorem negative_baseline_numeric_cex :
    (-1 : ℚ) < 0 ∧ adjustedDriveTime (-1) (proximityFactor 1) = -0.8 := by
  refine ⟨by norm_num, ?_⟩
  norm_num [adjustedDriveTime, proximityFactor, round_eq]

/-- C6 (amended): the drive-time adjustment performs no baseline validation;
for every baseline, including negative ones, it returns the numeric value
round(baseline * factor, 1 decimal), which is ≤ 0 whenever the baseline is
negative and the factor lies in (0, 1]. -/
theorem adjustedDriveTime_neg_baseline (b f : ℚ) (hb : b < 0) (hf0 : 0 < f)
    (_hf1 : f ≤ 1) :
    adjustedDriveTime b f = (round (b * f * 10) : ℚ) / 10 ∧
    adjustedDriveTime b f ≤ 0 := by
  refine ⟨rfl, ?_⟩
  unfold adjustedDriveTime
  have hx : b * f * 10 ≤ 0 := by nlinarith
  have h1 : round (b * f * 10) ≤ round (0 : ℚ) := by
    rw [round_eq, round_eq]
    exact Int.floor_mono (by linarith)
  rw [round_zero] at h1
  have h2 : (round (b * f * 10) : ℚ) ≤ 0 := by exact_mod_cast h1
  linarith

/-- Witness for the amended C6 at baseline -1 h and the N = 1 tier factor. -/
theorem adjustedDriveTime_neg_baseline_witness :
    adjustedDriveTime (-1) (proximityFactor 1) =
      (round ((-1 : ℚ) * proximityFactor 1 * 10) : ℚ) / 10 ∧
    adjustedDriveTime (-1) (proximityFactor 1) ≤ 0 :=
  adjustedDriveTime_neg_baseline (-1) (proximityFactor 1) (by norm_num)
    (by norm_num [proximityFactor]) (by norm_num [proximityFactor])

lemma nearbyList_nil (lat lng : ℚ) (bs : String) (rad : ℚ) :
    nearbyList lat lng bs rad [] = [] := by
  unfold nearbyList
  simp

lemma computeProximity_ok_iff (q : ProximityQuery) (cs : List CandidateProperty)
    (r : ProximityResult) :
    computeProximity q cs = Except.ok r ↔
      (q.lat ≠ 0 ∧ q.lng ≠ 0 ∧ q.branch ≠ "") ∧
      r = ⟨nearbyList q.lat q.lng q.branch.toLower q.radiusMiles cs,
        proximityFactor (nearbyList q.lat q.lng q.branch.toLower q.radiusMiles cs).length,
        proximityDescription (nearbyList q.lat q.lng q.branch.toLower q.radiusMiles cs).length
          q.radiusMiles,
        (nearbyList q.lat q.lng q.branch.toLower q.radiusMiles cs).length⟩ := by
  unfold computeProximity
  split
  · rename_i h
    constructor
    · intro hx
      exact absurd hx (by simp)
    · rintro ⟨⟨h1, h2, h3⟩, -⟩
      rcases h with h | h | h
      · exact absurd h h1
      · exact absurd h h2
      · exact absurd h h3
  · rename_i h
    push_neg at h
    simp only [Except.ok.injEq]
    constructor
    · intro he
      exact ⟨h, he.symm⟩
    · rintro ⟨-, rfl⟩
      rfl

lemma mem_nearbyList (lat lng : ℚ) (bs : String) (rad : ℚ)
    (cs : List CandidateProperty) (p : CandidateProperty) (d : ℝ) :
    (p, d) ∈ nearbyList lat lng bs rad cs ↔
      p ∈ cs ∧ p.is_active = true ∧ p.branch = bs ∧
      d = propertyDistance lat lng p.lat p.lng ∧ d ≤ (rad : ℝ) := by
  unfold nearbyList
  rw [List.mem_mergeSort, List.mem_filter, List.mem_map]
  constructor
  · rintro ⟨⟨p1, hp1, heq⟩, hd⟩
    rw [List.mem_filter] at hp1
    obtain ⟨hmem, hpred⟩ := hp1
    unfold scoreCandidate at heq
    rw [Prod.mk.injEq] at heq
    obtain ⟨rfl, hdist⟩ := heq
    rw [Bool.and_eq_true, beq_iff_eq] at hpred
    rw [decide_eq_true_eq] at hd
    exact ⟨hmem, hpred.1, hpred.2, hdist.symm, hd⟩
  · rintro ⟨hmem, hact, hbr, rfl, hd⟩
    refine ⟨⟨p, ?_, rfl⟩, ?_⟩
    · rw [List.mem_filter]
      exact ⟨hmem, by rw [Bool.and_eq_true, beq_iff_eq]; exact ⟨hact, hbr⟩⟩
    · rw [decide_eq_true_eq]
      exact hd

lemma nearbyList_pairwise (lat lng : ℚ) (bs : String) (rad : ℚ)
    (cs : List CandidateProperty) :
    (nearbyList lat lng bs rad cs).Pairwise
      (fun a b : CandidateProperty × ℝ => a.2 ≤ b.2) := by
  unfold nearbyList
  refine List.Pairwise.imp ?_ (List.sorted_mergeSort ?_ ?_ _)
  · intro a b hab
    simpa using hab
  · intro a b c hab hbc
    simp only [decide_eq_true_eq] at hab hbc ⊢
    exact le_trans hab hbc
  · intro a b
    simpa using le_total a.2 b.2

/-- C2: whenever the query succeeds, the returned nearby list contains
exactly the candidates that are active, carry the query's (lowercased)
branch code and whose rounded distance is ≤ radius (inclusive), and the
list is ordered ascending by distance. -/
theorem computeProximity_nearby_exact (q : ProximityQuery)
    (cs : List CandidateProperty) (r : ProximityResult)
    (h : computeProximity q cs = Except.ok r) :
    (∀ p d, (p, d) ∈ r.nearbyProperties ↔
      p ∈ cs ∧ p.is_active = true ∧ p.branch = q.branch.toLower ∧
      d = propertyDistance q.lat q.lng p.lat p.lng ∧ d ≤ (q.radiusMiles : ℝ)) ∧
    r.nearbyProperties.Pairwise (fun a b => a.2 ≤ b.2) := by
  rw [computeProximity_ok_iff] at h
  obtain ⟨-, rfl⟩ := h
  exact ⟨fun p d => mem_nearbyList q.lat q.lng q.branch.toLower q.radiusMiles cs p d,
    nearbyList_pairwise q.lat q.lng q.branch.toLower q.radiusMiles cs⟩

/-- Witness for C2 at a concrete successful query with an empty candidate set. -/
theorem computeProximity_nearby_exact_witness :
    ∃ r : ProximityResult,
      computeProximity ⟨33, -112, "phx-sw", 1⟩ [] = Except.ok r ∧
      ((∀ p d, (p, d) ∈ r.nearbyProperties ↔
        p ∈ ([] : List CandidateProperty) ∧ p.is_active = true ∧
        p.branch = String.toLower "phx-sw" ∧
        d = propertyDistance 33 (-112) p.lat p.lng ∧ d ≤ ((1 : ℚ) : ℝ)) ∧
      r.nearbyProperties.Pairwise (fun a b => a.2 ≤ b.2)) := by
  have hok : computeProximity ⟨33, -112, "phx-sw", 1⟩ [] =
      Except.ok ⟨[], 1, "Isolated property", 0⟩ := by
    rw [computeProximity_ok_iff]
    refine ⟨⟨by decide, by decide, by decide⟩, ?_⟩
    rw [nearbyList_nil]
    norm_num [ProximityResult.mk.injEq, proximityFactor, proximityDescription]
  exact ⟨_, hok, computeProximity_nearby_exact _ _ _ hok⟩

/-- C1: the discount factor of every returned result is determined solely
by the count of retained candidates, following the fixed tier table. -/
theorem computeProximity_factor_table (q : ProximityQuery)
    (cs : List CandidateProperty) (r : ProximityResult)
    (h : computeProximity q cs = Except.ok r) :
    r.count = r.nearbyProperties.length ∧
    (10 ≤ r.count → r.proximityFactor = 0.25) ∧
    (5 ≤ r.count ∧ r.count ≤ 9 → r.proximityFactor = 0.5) ∧
    (3 ≤ r.count ∧ r.count ≤ 4 → r.proximityFactor = 0.7) ∧
    (1 ≤ r.count ∧ r.count ≤ 2 → r.proximityFactor = 0.85) ∧
    (r.count = 0 → r.proximityFactor = 1) := by
  rw [computeProximity_ok_iff] at h
  obtain ⟨-, rfl⟩ := h
  dsimp only
  refine ⟨rfl, ?_, ?_, ?_, ?_, ?_⟩ <;> intro hc <;>
    (try obtain ⟨hc1, hc2⟩ := hc) <;>
    simp only [proximityFactor] <;>
    split_ifs <;> first | omega | norm_num

/-- Witness for C1 at a concrete successful query (count 0 tier). -/
theorem computeProximity_factor_table_witness :
    ∃ r : ProximityResult,
      computeProximity ⟨33, -112, "phx-sw", 1⟩ [] = Except.ok r ∧
      (r.count = r.nearbyProperties.length ∧
      (10 ≤ r.count → r.proximityFactor = 0.25) ∧
      (5 ≤ r.count ∧ r.count ≤ 9 → r.proximityFactor = 0.5) ∧
      (3 ≤ r.count ∧ r.count ≤ 4 → r.proximityFactor = 0.7) ∧
      (1 ≤ r.count ∧ r.count ≤ 2 → r.proximityFactor = 0.85) ∧
      (r.count = 0 → r.proximityFactor = 1)) := by
  have hok : computeProximity ⟨33, -112, "phx-sw", 1⟩ [] =
      Except.ok ⟨[], 1, "Isolated property", 0⟩ := by
    rw [computeProximity_ok_iff]
    refine ⟨⟨by decide, by decide, by decide⟩, ?_⟩
    rw [nearbyList_nil]
    norm_num [ProximityResult.mk.injEq, proximityFactor, proximityDescription]
  exact ⟨_, hok, computeProximity_factor_table _ _ _ hok⟩

/-- C9: a query whose latitude or longitude is exactly 0 is JS-falsy and is
rejected with the missing-parameters error, even though 0 is a valid
coordinate value. -/
theorem computeProximity_zero_coordinate_rejected (q : ProximityQuery)
    (cs : List CandidateProperty) (h : q.lat = 0 ∨ q.lng = 0) :
    computeProximity q cs =
      Except.error "Missing required parameters: lat, lng, and branch are all required" := by
  unfold computeProximity
  rw [if_pos]
  rcases h with h | h
  · exact Or.inl h
  · exact Or.inr (Or.inl h)

/-- Witness for C9: latitude exactly 0 is rejected. -/
theorem computeProximity_zero_coordinate_rejected_witness :
    computeProximity ⟨0, -112, "phx-sw", 1⟩ [] =
      Except.error "Missing required parameters: lat, lng, and branch are all required" :=
  computeProximity_zero_coordinate_rejected ⟨0, -112, "phx-sw", 1⟩ [] (Or.inl rfl)

/-- C7: a valid query with an empty candidate set, or with no candidate
surviving the radius cut, succeeds with the N = 0 tier: count 0, factor
1.00, description "Isolated property". -/
theorem computeProximity_isolated (q : ProximityQuery) (cs : List CandidateProperty)
    (hlat : q.lat ≠ 0) (hlng : q.lng ≠ 0) (hbr : q.branch ≠ "")
    (hempty : cs = [] ∨ nearbyList q.lat q.lng q.branch.toLower q.radiusMiles cs = []) :
    computeProximity q cs = Except.ok ⟨[], 1, "Isolated property", 0⟩ := by
  have hnil : nearbyList q.lat q.lng q.branch.toLower q.radiusMiles cs = [] := by
    rcases hempty with rfl | h
    · exact nearbyList_nil _ _ _ _
    · exact h
  rw [computeProximity_ok_iff]
  refine ⟨⟨hlat, hlng, hbr⟩, ?_⟩
  rw [hnil]
  norm_num [ProximityResult.mk.injEq, proximityFactor, proximityDescription]

/-- Witness for C7 at a concrete valid query with an empty candidate set. -/
theorem computeProximity_isolated_witness :
    computeProximity ⟨36, -115, "lv", 1⟩ [] =
      Except.ok ⟨[], 1, "Isolated property", 0⟩ :=
  computeProximity_isolated ⟨36, -115, "lv", 1⟩ []
    (by decide) (by decide) (by decide) (Or.inl rfl)

/-- C5 counterexample: a query with the non-positive radius -1 is not
rejected: the handler returns a ProximityResult (the N = 0 tier), so the
claimed InvalidArgument failure for radius ≤ 0 does not happen. -/
theorem radius_not_validated_cex :
    (-1 : ℚ) ≤ 0 ∧
    computeProximity ⟨33, -112, "phx-sw", -1⟩ [] =
      Except.ok ⟨[], 1, "Isolated property", 0⟩ := by
  refine ⟨by norm_num, ?_⟩
  rw [computeProximity_ok_iff]
  refine ⟨⟨by decide, by decide, by decide⟩, ?_⟩
  rw [nearbyList_nil]
  norm_num [ProximityResult.mk.injEq, proximityFactor, proximityDescription]

/-- C5 (amended): the handler rejects only JS-falsy lat, lng or branch; the
radius is never validated, and every query with non-falsy parameters
returns a ProximityResult regardless of its radius, including radius ≤ 0. -/
theorem computeProximity_no_radius_validation (q : ProximityQuery)
    (cs : List CandidateProperty) (hlat : q.lat ≠ 0) (hlng : q.lng ≠ 0)
    (hbr : q.branch ≠ "") :
    ∃ r : ProximityResult, computeProximity q cs = Except.ok r :=
  ⟨⟨nearbyList q.lat q.lng q.branch.toLower q.radiusMiles cs,
    proximityFactor (nearbyList q.lat q.lng q.branch.toLower q.radiusMiles cs).length,
    proximityDescription (nearbyList q.lat q.lng q.branch.toLower q.radiusMiles cs).length
      q.radiusMiles,
    (nearbyList q.lat q.lng q.branch.toLower q.radiusMiles cs).length⟩,
    (computeProximity_ok_iff q cs _).2 ⟨⟨hlat, hlng, hbr⟩, rfl⟩⟩

/-- Witness for the amended C5 at a concrete query with radius -1. -/
theorem computeProximity_no_radius_validation_witness :
    ∃ r : ProximityResult,
      computeProximity ⟨33, -112, "phx-sw", -1⟩ [] = Except.ok r :=
  computeProximity_no_radius_validation ⟨33, -112, "phx-sw", -1⟩ []
    (by decide) (by decide) (by decide)

lemma rawHaversine_of_hav {lat lng plat plng θ : ℝ}
    (hA : havA lat lng plat plng = Real.sin θ * Real.sin θ)
    (hθ0 : 0 ≤ θ) (hθle : θ ≤ π / 2) :
    rawHaversine lat lng plat plng = 3959 * (2 * θ) := by
  have hpi := Real.pi_pos
  unfold rawHaversine
  rw [hA]
  have hs0 : 0 ≤ Real.sin θ :=
    Real.sin_nonneg_of_nonneg_of_le_pi hθ0 (by linarith)
  rw [Real.sqrt_mul_self hs0]
  have hcc : 1 - Real.sin θ * Real.sin θ = Real.cos θ * Real.cos θ := by
    nlinarith [Real.sin_sq_add_cos_sq θ]
  rw [hcc]
  have hc0 : 0 ≤ Real.cos θ :=
    Real.cos_nonneg_of_mem_Icc ⟨by linarith, hθle⟩
  rw [Real.sqrt_mul_self hc0]
  have harg : atan2 (Real.sin θ) (Real.cos θ) = θ := by
    unfold atan2
    rw [show (⟨Real.cos θ, Real.sin θ⟩ : ℂ) =
        (Real.cos θ : ℂ) + (Real.sin θ : ℂ) * Complex.I
      from Complex.mk_eq_add_mul_I _ _, Complex.ofReal_cos, Complex.ofReal_sin]
    exact Complex.arg_cos_add_sin_mul_I ⟨by linarith, by linarith⟩
  rw [harg]

lemma rawHaversine_eq_lng (lat lng plat : ℝ) (h0 : 0 ≤ plat - lat)
    (h90 : plat - lat ≤ 90) :
    rawHaversine lat lng plat lng = 3959 * ((plat - lat) * π / 180) := by
  have hpi := Real.pi_pos
  have hA : havA lat lng plat lng =
      Real.sin ((plat - lat) * π / 180 / 2) *
        Real.sin ((plat - lat) * π / 180 / 2) := by
    unfold havA
    simp
  have hθ0 : 0 ≤ (plat - lat) * π / 180 / 2 :=
    div_nonneg (div_nonneg (mul_nonneg h0 hpi.le) (by norm_num)) (by norm_num)
  have hmul : (plat - lat) * π ≤ 90 * π := mul_le_mul_of_nonneg_right h90 hpi.le
  have hθle : (plat - lat) * π / 180 / 2 ≤ π / 2 := by linarith
  rw [rawHaversine_of_hav hA hθ0 hθle]
  ring

lemma rawHaversine_self (lat lng : ℝ) : rawHaversine lat lng lat lng = 0 := by
  have h := rawHaversine_eq_lng lat lng lat (by linarith) (by linarith)
  simpa using h

lemma round2_le_of_lt_half {x : ℝ} (k : ℕ) (hx : x < (k : ℝ) / 100 + 1 / 200) :
    round2 x ≤ (k : ℝ) / 100 := by
  unfold round2
  rw [round_eq]
  have hlt : ⌊x * 100 + 1 / 2⌋ < (k : ℤ) + 1 := by
    rw [Int.floor_lt]
    push_cast
    linarith
  have hle : ⌊x * 100 + 1 / 2⌋ ≤ (k : ℤ) := by omega
  have hcast : ((⌊x * 100 + 1 / 2⌋ : ℤ) : ℝ) ≤ ((k : ℤ) : ℝ) := by exact_mod_cast hle
  push_cast at hcast
  linarith

lemma round2_eq_hundredth {x : ℝ} (h1 : 0.0055 < x) (h2 : x < 0.0065) :
    round2 x = 0.01 := by
  unfold round2
  rw [round_eq]
  have hf : ⌊x * 100 + 1 / 2⌋ = 1 := by
    rw [Int.floor_eq_iff]
    constructor
    · push_cast
      linarith
    · push_cast
      linarith
  rw [hf]
  norm_num

unseal String.mapAux in
lemma toLower_phx_sw : String.toLower "phx-sw" = "phx-sw" := by decide

lemma rawHaversine_sample_val : rawHaversine 1 10 (1 + 87 / 1000000) 10 =
    3959 * (87 / 1000000 * π / 180) := by
  have h := rawHaversine_eq_lng 1 10 (1 + 87 / 1000000) (by norm_num) (by norm_num)
  rw [h]
  norm_num

lemma rawHaversine_sample_bounds :
    0.0055 < rawHaversine 1 10 (1 + 87 / 1000000) 10 ∧
    rawHaversine 1 10 (1 + 87 / 1000000) 10 < 0.0065 := by
  rw [rawHaversine_sample_val]
  constructor <;> nlinarith [Real.pi_gt_d6, Real.pi_lt_d6]

lemma propertyDistance_sample_val :
    propertyDistance 1 10 (1 + 87 / 1000000) 10 = 0.01 := by
  unfold propertyDistance
  have hc : ((1 + 87 / 1000000 : ℚ) : ℝ) = 1 + 87 / 1000000 := by
    push_cast
    ring
  rw [show ((1 : ℚ) : ℝ) = 1 by norm_num, show ((10 : ℚ) : ℝ) = 10 by norm_num, hc]
  exact round2_eq_hundredth rawHaversine_sample_bounds.1 rawHaversine_sample_bounds.2

/-- C10 counterexample: for the query radius 1/500 = 0.002 (not a multiple
of 0.01) and a same-branch active candidate whose exact haversine distance
is about 0.00601 miles — exceeding the radius by less than 0.005 — the
distance rounds to 0.01 > 0.002, so the candidate is excluded and the
result is the empty N = 0 tier, contradicting the claimed inclusion. -/
theorem radius_cut_after_rounding_cex :
    ((1 / 500 : ℚ) : ℝ) < rawHaversine 1 10 (1 + 87 / 1000000) 10 ∧
    rawHaversine 1 10 (1 + 87 / 1000000) 10 < ((1 / 500 : ℚ) : ℝ) + 0.005 ∧
    computeProximity ⟨1, 10, "phx-sw", 1 / 500⟩
      [⟨7, "lot7", 1 + 87 / 1000000, 10, "phx-sw", true⟩] =
      Except.ok ⟨[], 1, "Isolated property", 0⟩ := by
  have hb := rawHaversine_sample_bounds
  have hcast : ((1 / 500 : ℚ) : ℝ) = 1 / 500 := by
    push_cast
    ring
  refine ⟨by rw [hcast]; linarith [hb.1], by rw [hcast]; linarith [hb.2], ?_⟩
  rw [computeProximity_ok_iff]
  refine ⟨⟨by decide, by decide, by decide⟩, ?_⟩
  have hnil : nearbyList 1 10 (String.toLower "phx-sw") (1 / 500)
      [⟨7, "lot7", 1 + 87 / 1000000, 10, "phx-sw", true⟩] = [] := by
    rw [toLower_phx_sw]
    unfold nearbyList scoreCandidate
    norm_num [List.filter_cons, List.map_cons]
    simp only [show (1000087 / 1000000 : ℚ) = 1 + 87 / 1000000 by norm_num,
      propertyDistance_sample_val]
    norm_num
  dsimp only
  rw [hnil]
  norm_num [ProximityResult.mk.injEq, proximityFactor, proximityDescription]

/-- C10 (amended): the radius cut is applied to the distance rounded to two
decimals; whenever the radius is an integer multiple of 0.01 miles (in
particular the default 1 mile), every active, branch-matching candidate
whose exact haversine distance is below radius + 0.005 has rounded distance
≤ radius and is included in the returned nearby list. (For radii that are
not multiples of 0.01 the rounding can instead exclude such a candidate.) -/
theorem radius_cut_rounded_inclusive (k : ℕ) (q : ProximityQuery)
    (cs : List CandidateProperty) (p : CandidateProperty)
    (hlat : q.lat ≠ 0) (hlng : q.lng ≠ 0) (hbr : q.branch ≠ "")
    (hrad : q.radiusMiles = (k : ℚ) / 100)
    (hp : p ∈ cs) (hact : p.is_active = true) (hbrm : p.branch = q.branch.toLower)
    (hdist : rawHaversine (q.lat : ℝ) (q.lng : ℝ) (p.lat : ℝ) (p.lng : ℝ) <
      (q.radiusMiles : ℝ) + 1 / 200) :
    ∃ r, computeProximity q cs = Except.ok r ∧
      (p, propertyDistance q.lat q.lng p.lat p.lng) ∈ r.nearbyProperties := by
  have hcast : (q.radiusMiles : ℝ) = (k : ℝ) / 100 := by
    rw [hrad]
    push_cast
    ring
  have hdle : propertyDistance q.lat q.lng p.lat p.lng ≤ (q.radiusMiles : ℝ) := by
    unfold propertyDistance
    rw [hcast]
    apply round2_le_of_lt_half
    rw [hcast] at hdist
    linarith
  refine ⟨_, (computeProximity_ok_iff q cs _).2 ⟨⟨hlat, hlng, hbr⟩, rfl⟩, ?_⟩
  exact (mem_nearbyList q.lat q.lng q.branch.toLower q.radiusMiles cs p _).2
    ⟨hp, hact, hbrm, rfl, hdle⟩

/-- Witness for the amended C10: a candidate at the origin itself (exact
distance 0 < 1 + 0.005) is included for the default radius 1 = 100/100. -/
theorem radius_cut_rounded_inclusive_witness :
    ∃ r, computeProximity ⟨33, -112, "phx-sw", 1⟩
        [⟨1, "w", 33, -112, "phx-sw", true⟩] = Except.ok r ∧
      (⟨1, "w", 33, -112, "phx-sw", true⟩,
        propertyDistance 33 (-112) 33 (-112)) ∈ r.nearbyProperties :=
  radius_cut_rounded_inclusive 100 ⟨33, -112, "phx-sw", 1⟩
    [⟨1, "w", 33, -112, "phx-sw", true⟩] ⟨1, "w", 33, -112, "phx-sw", true⟩
    (by decide) (by decide) (by decide) (by norm_num)
    (by simp) rfl toLower_phx_sw.symm
    (by dsimp only; rw [rawHaversine_self]; push_cast; norm_num)

end PropertyCalc
